import Mathlib

/-!
Verification of the reference-layout and request-history components of the
scalar repository. The definitions below are a shallow embedding of the
TypeScript/Vue source: the collapse-state map, the mount and server-prefetch
logic, the debounced scroll handler, the resize-observer callback, the
request-history list rendering, and the template's region visibility.
-/

namespace Scalar

/-- A tag object from the parsed OpenAPI document (`props.parsedSpec.tags`).
Only its identity matters here. -/
structure Tag where
  name : String
deriving DecidableEq, Repr

/-- The collapse-state map: section identifier to expanded/collapsed boolean
(`collapsedSidebarItems` from `useSidebar`). -/
def CollapseMap : Type := String → Bool

/-- `setCollapsedSidebarItem(sectionId, value)` from the `useSidebar` hook:
point update of the collapse-state map. -/
def setCollapsedSidebarItem (id : String) (v : Bool) (m : CollapseMap) : CollapseMap :=
  fun k => if k = id then v else m k

/-- The navigation environment of a mounted view: the current URL fragment
(`hash.value` from `useNavState`), the parsed document's top-level tags, and
the two external resolvers `getSectionId` / `getTagId` supplied by the
navigation-state collaborator (their implementations live outside `src/`, so
they are kept abstract here; JavaScript returns a string, where the empty
string is falsy). -/
structure NavEnv where
  hash : String
  tags : List Tag
  getSectionId : String → String
  getTagId : Tag → String

/-- The section identifier the `onMounted` callback computes for initial
expansion: `if (hash.value) sectionId = getSectionId(hash.value); else if
(firstTag) sectionId = getTagId(firstTag)`, with `sectionId` starting out
`null` (modelled as `none`). -/
def mountSectionId (env : NavEnv) : Option String :=
  if env.hash ≠ "" then some (env.getSectionId env.hash)
  else
    match env.tags.head? with
    | some t => some (env.getTagId t)
    | none => none

/-- The collapse-state effect of the `onMounted` callback:
`if (sectionId) setCollapsedSidebarItem(sectionId, true)`. The JavaScript
truthiness test rejects both `null` and the empty string. -/
def onMountedCollapse (env : NavEnv) (m : CollapseMap) : CollapseMap :=
  match mountSectionId env with
  | some s => if s ≠ "" then setCollapsedSidebarItem s true m else m
  | none => m

/-- The collapse-state effect of the `onServerPrefetch` callback:
`const firstTag = props.parsedSpec.tags?.[0]; if (firstTag)
setCollapsedSidebarItem(getTagId(firstTag), true)`. Note that unlike the
client mount pass it never consults the URL fragment and performs no
truthiness check on the resulting identifier. -/
def serverCollapse (env : NavEnv) (m : CollapseMap) : CollapseMap :=
  match env.tags.head? with
  | some t => setCollapsedSidebarItem (env.getTagId t) true m
  | none => m

/-- Modelled from the spec: the serialized server/client hand-off snapshot
(`SSRState` from `@scalar/oas-utils`, not under `src/`); only the
`useSidebarContent-collapsedSidebarItems` key is relevant here. -/
structure SSRState where
  collapsedSidebarItems : CollapseMap

/-- The SSR context object returned by `useSSRContext<SSRState>()`; its
`scalarState` field may be unset before the prefetch runs. -/
structure SSRContext where
  scalarState : Option SSRState

/-- Modelled from the spec: `defaultStateFactory` from `@scalar/oas-utils`
(not under `src/`) produces a fresh hand-off snapshot; sections start
collapsed. -/
def defaultStateFactory : SSRState :=
  ⟨fun _ => false⟩

/-- The full `onServerPrefetch` callback: expand the first tag's section,
then, when an SSR context exists (`if (!ctx) return`), initialize
`ctx.scalarState` if absent and write the collapse-state map into its
`useSidebarContent-collapsedSidebarItems` key. Returns the updated map and
the updated context. -/
def onServerPrefetchRun (env : NavEnv) (m : CollapseMap) (ctx : Option SSRContext) :
    CollapseMap × Option SSRContext :=
  let m' := serverCollapse env m
  match ctx with
  | none => (m', none)
  | some c =>
    let st := c.scalarState.getD defaultStateFactory
    (m', some ⟨some { st with collapsedSidebarItems := m' }⟩)

/-- Follows the spec's words for the server pass (claim C4): the server-side
render is said to perform the equivalent computation to the client mount
pass, i.e. expand the fragment-identified section when a fragment is present
and otherwise the first top-level tag. -/
def specServerCollapse (env : NavEnv) (m : CollapseMap) : CollapseMap :=
  onMountedCollapse env m

/-- A scroll event as seen by the handler: `value.target.scrollTop` may be
absent (`undefined`), modelled as `none`. -/
structure ScrollEvent where
  scrollTop : Option Int

/-- `const scrollDistance = value.target.scrollTop ?? 0`. -/
def scrollDistance (e : ScrollEvent) : Int :=
  e.scrollTop.getD 0

/-- The body of the debounced scroll handler acting on the hash ref:
`if (scrollDistance < 50) { ...replaceState...; hash.value = '' }`. Returns
the new value of the URL fragment. -/
def debouncedScroll (e : ScrollEvent) (hash : String) : String :=
  if scrollDistance e < 50 then "" else hash

/-- The rectangle reported for an observed element. -/
structure ContentRect where
  height : Int
deriving DecidableEq, Repr

/-- One resize-observer entry. -/
structure ResizeEntry where
  contentRect : ContentRect
deriving DecidableEq, Repr

/-- The `useResizeObserver` callback:
`elementHeight.value = entries[0].contentRect.height + 'px'`. In JavaScript
`entries[0]` on an empty array is `undefined` and the subsequent
`.contentRect` access throws a TypeError; the thrown case is modelled as
`none`, the successful assignment as `some` of the new `elementHeight`. -/
def resizeObserverCallback (entries : List ResizeEntry) : Option String :=
  match entries.head? with
  | some e => some (toString e.contentRect.height ++ "px")
  | none => none

/-- A recorded response summary of a history entry (status, elapsed time),
per the spec's data model. -/
structure ResponseSummary where
  status : Nat
  timing : Nat
deriving DecidableEq, Repr

/-- One request-history entry from the shared request store: a request
(method, target) and an optional response summary, absent until the response
arrives. -/
structure HistoryEntry where
  method : String
  target : String
  response : Option ResponseSummary
deriving DecidableEq, Repr

/-- A rendered table cell of the history list: an empty placeholder, real
content, or an error rendering. -/
inductive Cell where
  | empty : Cell
  | content : String → Cell
  | error : String → Cell
deriving DecidableEq, Repr

/-- Modelled from the spec: the response cell rendered by
`RequestHistoryItem.vue` (not under `src/`): the visual affordance is derived
directly from stored fields, and absence of a response yields an
empty/placeholder cell rather than an error. -/
def renderResponseCell (r : Option ResponseSummary) : Cell :=
  match r with
  | none => Cell.empty
  | some s => Cell.content (toString s.status)

/-- One rendered row of the request-history table. -/
structure RenderedItem where
  requestCell : Cell
  responseCell : Cell
  timeCell : Cell
deriving DecidableEq, Repr

/-- Modelled from the spec: the row `RequestHistoryItem.vue` (not under
`src/`) renders for one entry: method/target, response summary, elapsed
time, each derived directly from the stored fields. -/
def renderHistoryItem (h : HistoryEntry) : RenderedItem :=
  { requestCell := Cell.content (h.method ++ " " ++ h.target)
    responseCell := renderResponseCell h.response
    timeCell :=
      match h.response with
      | none => Cell.empty
      | some s => Cell.content (toString s.timing) }

/-- The `RequestHistory.vue` template body:
`<RequestHistoryItem v-for="history in requestHistoryOrder" ... />`, one item
per entry of the store's `requestHistoryOrder`, in that order. -/
def renderHistoryList (requestHistoryOrder : List HistoryEntry) : List RenderedItem :=
  requestHistoryOrder.map renderHistoryItem

/-- Modelled from the spec: toggling a sidebar node flips its entry in the
collapse-state map (the toggle operation lives in the `useSidebar` hook, not
under `src/`). -/
def toggleCollapsedSidebarItem (id : String) (m : CollapseMap) : CollapseMap :=
  setCollapsedSidebarItem id (!(m id)) m

/-- A DOM container, abstracted as the multiset of element markers (class
names) present in its rendered output (`innerHTML`). -/
structure DomContainer where
  nodes : List String
deriving DecidableEq, Repr

/-- Modelled from the spec: `createApiClientWeb` (the module under test in
`create-api-client-web.test.ts`; its implementation is not under `src/`)
mounts the embedded client widget into the given container, so the
container's rendered output afterwards contains the widget's root marker
element `scalar-app`. -/
def createApiClientWeb (c : DomContainer) : DomContainer :=
  { c with nodes := c.nodes ++ ["scalar-app"] }

/-- The configuration flags of the layout component that matter for region
visibility. -/
structure LayoutConfig where
  isEditable : Bool
  showSidebar : Bool
deriving DecidableEq, Repr

/-- `const showRenderedContent = computed(() => isLargeScreen.value ||
!props.configuration.isEditable)`. -/
def showRenderedContent (isLargeScreen : Bool) (cfg : LayoutConfig) : Bool :=
  isLargeScreen || !cfg.isEditable

/-- The region structure of the layout template: the header is
unconditional, the navigation `aside` has `v-if="configuration.showSidebar"`,
the editor uses `v-show` (always present in the DOM), the rendered content
and the footer sit inside `<template v-if="showRenderedContent">` with the
footer additionally guarded by `v-if="$slots.footer"`, and the API-client
modal is unconditional. -/
def renderedRegions (cfg : LayoutConfig) (isLargeScreen hasFooterSlot : Bool) : List String :=
  ["header"]
    ++ (if cfg.showSidebar then ["navigation"] else [])
    ++ ["editor"]
    ++ (if showRenderedContent isLargeScreen cfg then
          ["rendered"] ++ (if hasFooterSlot then ["footer"] else [])
        else [])
    ++ ["api-client-modal"]

/-- Concrete navigation environment exhibiting the server/client divergence:
a fragment is present, and it resolves to a section other than the first
tag's section. -/
def c4Env : NavEnv :=
  { hash := "#section-abc"
    tags := [⟨"pets"⟩]
    getSectionId := fun _ => "section-abc"
    getTagId := fun _ => "tag-pets" }

/-- The all-collapsed initial map. -/
def c4Map : CollapseMap := fun _ => false

/-- Claim C1: if the current URL fragment is non-empty and resolves to a
known (non-empty) section identifier `s`, then immediately after initial
mount the collapse-state map marks `s` as expanded, and every other
section's entry is left exactly as it was (no other section is forced
open by the mount logic). -/
theorem mounted_fragment_expands_exactly_its_section
    (env : NavEnv) (m : CollapseMap) (s : String)
    (hh : env.hash ≠ "") (hs : env.getSectionId env.hash = s) (hne : s ≠ "") :
    onMountedCollapse env m s = true ∧
      ∀ k, k ≠ s → onMountedCollapse env m k = m k := by
  unfold onMountedCollapse mountSectionId
  rw [if_pos hh, hs]
  refine ⟨?_, ?_⟩
  · simp [hne, setCollapsedSidebarItem]
  · intro k hk
    simp [hne, setCollapsedSidebarItem, hk]

/-- Witness for C1 at a concrete environment. -/
theorem mounted_fragment_expands_exactly_its_section_witness :
    onMountedCollapse
        { hash := "#pets", tags := [], getSectionId := fun _ => "section-pets",
          getTagId := fun _ => "" }
        (fun _ => false) "section-pets" = true ∧
      onMountedCollapse
        { hash := "#pets", tags := [], getSectionId := fun _ => "section-pets",
          getTagId := fun _ => "" }
        (fun _ => false) "section-other" = (fun _ => false) "section-other" := by
  have h := mounted_fragment_expands_exactly_its_section
    { hash := "#pets", tags := [], getSectionId := fun _ => "section-pets",
      getTagId := fun _ => "" }
    (fun _ => false) "section-pets" (by decide) rfl (by decide)
  exact ⟨h.1, h.2 "section-other" (by decide)⟩

/-- Claim C2: if the URL fragment is empty and the parsed document has at
least one top-level tag, then after initial mount the collapse-state entry
for the first tag's section identifier is expanded (the external `getTagId`
resolver is assumed to return a genuine, non-empty identifier, which the
JavaScript truthiness guard requires). -/
theorem mounted_no_fragment_expands_first_tag
    (env : NavEnv) (m : CollapseMap) (t : Tag)
    (hh : env.hash = "") (ht : env.tags.head? = some t)
    (hne : env.getTagId t ≠ "") :
    onMountedCollapse env m (env.getTagId t) = true := by
  unfold onMountedCollapse mountSectionId
  rw [hh]
  simp [ht, hne, setCollapsedSidebarItem]

/-- Witness for C2 at a concrete environment. -/
theorem mounted_no_fragment_expands_first_tag_witness :
    onMountedCollapse
        { hash := "", tags := [⟨"pets"⟩], getSectionId := fun _ => "",
          getTagId := fun _ => "tag-pets" }
        (fun _ => false)
        (NavEnv.getTagId
          { hash := "", tags := [⟨"pets"⟩], getSectionId := fun _ => "",
            getTagId := fun _ => "tag-pets" }
          ⟨"pets"⟩) = true :=
  mounted_no_fragment_expands_first_tag
    { hash := "", tags := [⟨"pets"⟩], getSectionId := fun _ => "",
      getTagId := fun _ => "tag-pets" }
    (fun _ => false) ⟨"pets"⟩ rfl rfl (by decide)

/-- Claim C3: a scroll event whose offset is strictly under 50 clears the
URL fragment to the empty string, and a scroll event at offset 200 leaves
the fragment unchanged. -/
theorem scroll_under_fifty_clears_hash
    (n : Int) (hash : String) (hn : n < 50) :
    debouncedScroll ⟨some n⟩ hash = "" ∧ debouncedScroll ⟨some 200⟩ hash = hash := by
  constructor
  · simp [debouncedScroll, scrollDistance, hn]
  · simp [debouncedScroll, scrollDistance]

/-- Witness for C3 at offset 10 and fragment `#x`. -/
theorem scroll_under_fifty_clears_hash_witness :
    debouncedScroll ⟨some 10⟩ "#x" = "" ∧ debouncedScroll ⟨some 200⟩ "#x" = "#x" :=
  scroll_under_fifty_clears_hash 10 "#x" (by decide)

/-- Counterexample for claim C4: the server-side-render pass does not
compute the same initially-expanded section as the client mount pass. With
a fragment present that resolves to a section other than the first tag's
section, the server pass (which only ever expands the first tag) produces a
different collapse-state map from the spec-described computation. -/
theorem server_pass_differs_from_client_counterexample :
    (onServerPrefetchRun c4Env c4Map none).1 ≠ specServerCollapse c4Env c4Map := by
  intro h
  exact absurd (congrFun h "tag-pets") (by decide)

/-- Claim C4 (amended): the server pass always expands the first top-level
tag's section, ignoring any URL fragment; when the fragment is empty (and
the first tag, if any, resolves to a non-empty identifier) it computes the
same collapse-state map as the client mount pass, and it writes the
resulting map into the hand-off structure whenever the SSR context exists. -/
theorem server_pass_matches_client_without_fragment
    (env : NavEnv) (m : CollapseMap) (c : SSRContext)
    (hh : env.hash = "")
    (ht : ∀ t, env.tags.head? = some t → env.getTagId t ≠ "") :
    (onServerPrefetchRun env m (some c)).1 = onMountedCollapse env m ∧
      ∃ st : SSRState,
        (onServerPrefetchRun env m (some c)).2 = some ⟨some st⟩ ∧
          st.collapsedSidebarItems = (onServerPrefetchRun env m (some c)).1 := by
  have hmain : serverCollapse env m = onMountedCollapse env m := by
    unfold serverCollapse onMountedCollapse mountSectionId
    rw [hh]
    cases hcase : env.tags.head? with
    | none => simp
    | some t => simp [ht t hcase]
  refine ⟨?_, ⟨{ c.scalarState.getD defaultStateFactory with
      collapsedSidebarItems := serverCollapse env m }, ?_, ?_⟩⟩ <;>
    simp [onServerPrefetchRun, hmain]

/-- Witness for the amended C4 at a concrete fragment-free environment. -/
theorem server_pass_matches_client_without_fragment_witness :
    (onServerPrefetchRun
        { hash := "", tags := [⟨"pets"⟩], getSectionId := fun _ => "",
          getTagId := fun _ => "tag-pets" }
        (fun _ => false) (some ⟨none⟩)).1 =
      onMountedCollapse
        { hash := "", tags := [⟨"pets"⟩], getSectionId := fun _ => "",
          getTagId := fun _ => "tag-pets" }
        (fun _ => false) ∧
      ∃ st : SSRState,
        (onServerPrefetchRun
            { hash := "", tags := [⟨"pets"⟩], getSectionId := fun _ => "",
              getTagId := fun _ => "tag-pets" }
            (fun _ => false) (some ⟨none⟩)).2 = some ⟨some st⟩ ∧
          st.collapsedSidebarItems =
            (onServerPrefetchRun
                { hash := "", tags := [⟨"pets"⟩], getSectionId := fun _ => "",
                  getTagId := fun _ => "tag-pets" }
                (fun _ => false) (some ⟨none⟩)).1 :=
  server_pass_matches_client_without_fragment
    { hash := "", tags := [⟨"pets"⟩], getSectionId := fun _ => "",
      getTagId := fun _ => "tag-pets" }
    (fun _ => false) ⟨none⟩ rfl (fun t _ => by
      show ("tag-pets" : String) ≠ ""
      decide)

/-- Counterexample for claim C5: the resize-observer callback is not a
silent no-op on an empty entries list; the unguarded `entries[0].contentRect`
access fails there (modelled as `none`). -/
theorem resize_callback_fails_on_empty_entries :
    resizeObserverCallback [] = none := rfl

/-- Claim C5 (amended): the server-prefetch hand-off is a silent no-op when
the SSR context object is absent, but the resize-observer callback has no
guard for an empty entries list and fails there; on a non-empty list it
assigns the first entry's height. -/
theorem ssr_noop_without_context_resize_unguarded
    (env : NavEnv) (m : CollapseMap) (e : ResizeEntry) :
    (onServerPrefetchRun env m none).2 = none ∧
      resizeObserverCallback [] = none ∧
      resizeObserverCallback [e] = some (toString e.contentRect.height ++ "px") :=
  ⟨rfl, rfl, rfl⟩

/-- Claim C6: the request-history list renders one item per store entry in
exactly the store's order (same length, and the item at every index is the
rendering of the entry at that index), and an entry whose response is absent
renders the empty placeholder response cell, not an error cell. -/
theorem history_list_renders_in_store_order
    (requestHistoryOrder : List HistoryEntry) (i : Nat) (e : HistoryEntry) :
    (renderHistoryList requestHistoryOrder).length = requestHistoryOrder.length ∧
      (renderHistoryList requestHistoryOrder)[i]? =
        (requestHistoryOrder[i]?).map renderHistoryItem ∧
      (renderHistoryItem { e with response := none }).responseCell = Cell.empty := by
  refine ⟨?_, ?_, rfl⟩
  · simp [renderHistoryList]
  · simp [renderHistoryList]

/-- Witness for C6 at a concrete two-entry store. -/
theorem history_list_renders_in_store_order_witness :
    (renderHistoryList
        [⟨"GET", "/pets", none⟩, ⟨"POST", "/pets", some ⟨201, 12⟩⟩]).length =
      ([⟨"GET", "/pets", none⟩, ⟨"POST", "/pets", some ⟨201, 12⟩⟩] :
        List HistoryEntry).length ∧
      (renderHistoryList
          [⟨"GET", "/pets", none⟩, ⟨"POST", "/pets", some ⟨201, 12⟩⟩])[0]? =
        (([⟨"GET", "/pets", none⟩, ⟨"POST", "/pets", some ⟨201, 12⟩⟩] :
          List HistoryEntry)[0]?).map renderHistoryItem ∧
      (renderHistoryItem
          { (⟨"GET", "/pets", none⟩ : HistoryEntry) with
            response := none }).responseCell = Cell.empty :=
  history_list_renders_in_store_order
    [⟨"GET", "/pets", none⟩, ⟨"POST", "/pets", some ⟨201, 12⟩⟩] 0 ⟨"GET", "/pets", none⟩

/-- Claim C7: toggling a section's collapse-state entry twice returns the
collapse-state map to its original value. -/
theorem toggle_collapse_involutive (id : String) (m : CollapseMap) :
    toggleCollapsedSidebarItem id (toggleCollapsedSidebarItem id m) = m := by
  funext k
  unfold toggleCollapsedSidebarItem setCollapsedSidebarItem
  by_cases h : k = id
  · subst h; simp
  · simp [h]

/-- Claim C8: mounting the embedded client widget into an empty container
yields rendered output containing the root marker element `scalar-app`,
which the container did not contain before mounting. -/
theorem mount_widget_adds_root_marker
    (c : DomContainer) (hc : c.nodes = []) :
    "scalar-app" ∉ c.nodes ∧ "scalar-app" ∈ (createApiClientWeb c).nodes := by
  constructor
  · rw [hc]; simp
  · simp [createApiClientWeb]

/-- Witness for C8 at the empty container. -/
theorem mount_widget_adds_root_marker_witness :
    "scalar-app" ∉ (⟨[]⟩ : DomContainer).nodes ∧
      "scalar-app" ∈ (createApiClientWeb ⟨[]⟩).nodes :=
  mount_widget_adds_root_marker ⟨[]⟩ rfl

/-- Claim C9: the rendered-content region is rendered iff the viewport is
large or the configuration is not editable; a supplied footer slot is
rendered iff additionally the footer slot is supplied; and on a small
screen with `isEditable` set, a supplied footer slot is never rendered. -/
theorem rendered_content_iff_large_or_not_editable
    (cfg : LayoutConfig) (L S : Bool) :
    ("rendered" ∈ renderedRegions cfg L S ↔ (L = true ∨ cfg.isEditable = false)) ∧
      ("footer" ∈ renderedRegions cfg L S ↔
        ((L = true ∨ cfg.isEditable = false) ∧ S = true)) ∧
      "footer" ∉ renderedRegions ⟨true, cfg.showSidebar⟩ false S := by
  obtain ⟨E, Sb⟩ := cfg
  cases E <;> cases Sb <;> cases L <;> cases S <;>
    simp [renderedRegions, showRenderedContent]

/-- Witness for C9: on a large non-editable screen with a footer slot, both
region and footer render; on a small editable screen the footer does not. -/
theorem rendered_content_iff_large_or_not_editable_witness :
    ("rendered" ∈ renderedRegions ⟨false, true⟩ true true ↔
        (true = true ∨ LayoutConfig.isEditable ⟨false, true⟩ = false)) ∧
      ("footer" ∈ renderedRegions ⟨false, true⟩ true true ↔
        ((true = true ∨ LayoutConfig.isEditable ⟨false, true⟩ = false) ∧ true = true)) ∧
      "footer" ∉ renderedRegions ⟨true, LayoutConfig.showSidebar ⟨false, true⟩⟩ false true :=
  rendered_content_iff_large_or_not_editable ⟨false, true⟩ true true

/-- Claim C10: a scroll event whose target lacks a `scrollTop` value
defaults the offset to 0, so the handler clears the URL fragment exactly as
for a genuine scroll to the top. -/
theorem scroll_missing_offset_defaults_to_zero (hash : String) :
    scrollDistance ⟨none⟩ = 0 ∧
      debouncedScroll ⟨none⟩ hash = "" ∧
      debouncedScroll ⟨none⟩ hash = debouncedScroll ⟨some 0⟩ hash := by
  refine ⟨rfl, ?_, ?_⟩
  · simp [debouncedScroll, scrollDistance]
  · simp [debouncedScroll, scrollDistance]

end Scalar
